import Mathlib

/-!
Verification of the swap program's risk-check and orchestration logic
(`programs/swap/src/lib.rs`), shallowly embedded over `Nat` with explicit
128-bit / 64-bit checked arithmetic. Rust's `checked_*` operations on
`u128`/`u64` return `None` on overflow or underflow; `unwrap` on `None`
aborts the transaction, which we model by propagating `none` (a `trap`
result). External venue calls (CPIs) are abstracted: balance readings
around each leg are inputs to the model.
-/

namespace SerumSwap

/-- First value that does not fit in a `u128`. -/
def U128 : Nat := 2 ^ 128

/-- `u128::checked_mul`: `none` iff the product overflows 128 bits. -/
def checkedMul (a b : Nat) : Option Nat :=
  if a * b < U128 then some (a * b) else none

/-- `u128::checked_add`: `none` iff the sum overflows 128 bits. -/
def checkedAdd (a b : Nat) : Option Nat :=
  if a + b < U128 then some (a + b) else none

/-- Checked subtraction (`u64`/`u128`): `none` iff it would underflow. -/
def checkedSub (a b : Nat) : Option Nat :=
  if b ≤ a then some (a - b) else none

/-- `u128::checked_div`: `none` iff the divisor is zero. -/
def checkedDiv (a b : Nat) : Option Nat :=
  if b = 0 then none else some (a / b)

/-- `10u128.checked_pow(d)`: `none` iff `10^d` overflows 128 bits.
(Rust's exponentiation-by-squaring with `checked_mul` at each step fails
exactly when the final power does not fit, since every intermediate value
divides the result or is a square not exceeding `10^32` for exponents whose
result fits.) -/
def checkedPow10 (d : Nat) : Option Nat :=
  if 10 ^ d < U128 then some (10 ^ d) else none

/-- `NonZeroU64::new`: `none` iff the argument is zero. -/
def nonZeroU64 (n : Nat) : Option Nat :=
  if n = 0 then none else some n

/-- `ExchangeRate`: the caller's minimum acceptable exchange rate. -/
structure ExchangeRate where
  rate : Nat
  from_decimals : Nat
  quote_decimals : Nat
  strict : Bool
deriving DecidableEq

/-- `DidSwap`: the swap outcome event fed to `apply_risk_checks`.
Mints and authority are abstract identifiers. -/
structure DidSwap where
  given_amount : Nat
  min_exchange_rate : ExchangeRate
  from_amount : Nat
  to_amount : Nat
  quote_amount : Nat
  spill_amount : Nat
  from_mint : Nat
  to_mint : Nat
  quote_mint : Nat
  authority : Nat
deriving DecidableEq

/-- Result of a swap instruction: success, one of the declared error
codes, or an arithmetic trap (an `unwrap` panic aborting the transaction). -/
inductive ProgResult where
  | ok
  | errSwapTokensCannotMatch
  | errZeroSwap
  | errSlippageExceeded
  | trap
deriving DecidableEq

/-- Order side. -/
inductive Side where
  | Bid
  | Ask
deriving DecidableEq

/-- `min_expected_amount = from_amount × rate × 10^quote_decimals`,
in `u128` checked arithmetic (lib.rs:229-244). -/
def min_expected_amount (e : DidSwap) : Option Nat :=
  (checkedMul e.from_amount e.min_exchange_rate.rate).bind fun a =>
  (checkedPow10 e.min_exchange_rate.quote_decimals).bind fun pq =>
  checkedMul a pq

/-- The spill surplus: zero when `spill_amount == 0` or `strict`,
otherwise `to_amount × spill_amount × 10^from_decimals × 10^quote_decimals
/ (quote_amount − spill_amount)` in `u128` checked arithmetic
(lib.rs:254-288). -/
def spill_surplus (e : DidSwap) : Option Nat :=
  if e.spill_amount = 0 || e.min_exchange_rate.strict then some 0
  else
    (checkedMul e.to_amount e.spill_amount).bind fun a =>
    (checkedPow10 e.min_exchange_rate.from_decimals).bind fun pf =>
    (checkedMul a pf).bind fun b =>
    (checkedPow10 e.min_exchange_rate.quote_decimals).bind fun pq =>
    (checkedMul b pq).bind fun c =>
    (checkedSub e.quote_amount e.spill_amount).bind fun d =>
    checkedDiv c d

/-- `to_amount × 10^from_decimals × 10^quote_decimals` in `u128`
checked arithmetic (lib.rs:291-308). -/
def scaled_to_amount (e : DidSwap) : Option Nat :=
  (checkedPow10 e.min_exchange_rate.from_decimals).bind fun pf =>
  (checkedMul e.to_amount pf).bind fun a =>
  (checkedPow10 e.min_exchange_rate.quote_decimals).bind fun pq =>
  checkedMul a pq

/-- `effective_to_amount = scaled to_amount + spill_surplus`
(lib.rs:249-311). -/
def effective_to_amount (e : DidSwap) : Option Nat :=
  (spill_surplus e).bind fun s =>
  (scaled_to_amount e).bind fun t =>
  checkedAdd t s

/-- `apply_risk_checks` (lib.rs:212-324): reject with `ZeroSwap` when
`to_amount == 0`; otherwise compare the effective to-amount against the
minimum expectation, rejecting with `SlippageExceeded` when strictly
below; any `unwrap` of a failed checked operation is a trap. -/
def apply_risk_checks (e : DidSwap) : ProgResult :=
  if e.to_amount = 0 then .errZeroSwap
  else
    match min_expected_amount e with
    | none => .trap
    | some m =>
      match effective_to_amount e with
      | none => .trap
      | some v => if v < m then .errSlippageExceeded else .ok

/-- Parameters of a `new_order_v3` CPI as submitted to the venue
(lib.rs:559-569). The three quantity fields have passed the
`NonZeroU64` conversions. -/
structure OrderParams where
  limit_price : Nat
  max_coin_qty : Nat
  max_native_pc_qty : Nat
  side : Side
  client_order_id : Nat
  limit : Nat
deriving DecidableEq

/-- `coin_lots` (lib.rs:612-614): `size.checked_div(coin_lot_size).unwrap()`;
a zero lot size is a trap. -/
def coin_lots (coin_lot_size size : Nat) : Option Nat :=
  checkedDiv size coin_lot_size

/-- `order_cpi` (lib.rs:540-570): wraps the three quantities in
`NonZeroU64::new(..).unwrap()` (a zero quantity is a trap) and submits the
order with `client_order_id = 0` and matching-cycle `limit = 65535`. -/
def order_cpi (limit_price max_coin_qty max_native_pc_qty : Nat)
    (side : Side) : Option OrderParams :=
  (nonZeroU64 limit_price).bind fun lp =>
  (nonZeroU64 max_coin_qty).bind fun mc =>
  (nonZeroU64 max_native_pc_qty).bind fun mpc =>
  some ⟨lp, mc, mpc, side, 0, 65535⟩

/-- `sell` (lib.rs:489-508): limit price 1, base quantity
`coin_lots(market, base_amount)` lots, unbounded quote acceptance. -/
def sell (coin_lot_size base_amount : Nat) : Option OrderParams :=
  (coin_lots coin_lot_size base_amount).bind fun lots =>
  order_cpi 1 lots (2 ^ 64 - 1) .Ask

/-- `buy` (lib.rs:515-530): unbounded limit price and base acceptance,
quote budget `quote_amount`. -/
def buy (quote_amount : Nat) : Option OrderParams :=
  order_cpi (2 ^ 64 - 1) (2 ^ 64 - 1) quote_amount .Bid

/-- `_is_valid_swap` (lib.rs:690-697): the two wallets' mints must differ. -/
def _is_valid_swap (from_mint to_mint : Nat) : ProgResult :=
  if from_mint = to_mint then .errSwapTokensCannotMatch else .ok

/-- Wallet balance readings around a direct swap: the selected
from-wallet and to-wallet, before and after the trade. -/
structure DirectObs where
  from_before : Nat
  to_before : Nat
  from_after : Nat
  to_after : Nat
deriving DecidableEq

/-- `swap` (lib.rs:61-119), with the venue CPI abstracted by the balance
readings `obs`: the access-control mint check runs first; the caller's
`quote_decimals` is overwritten with 0; deltas are trapping subtractions;
the outcome is built with `quote_amount = 0`, `spill_amount = 0` and fed
to `apply_risk_checks`. -/
def swap (side : Side) (amount : Nat) (mer : ExchangeRate)
    (coin_mint pc_mint authority : Nat) (obs : DirectObs) : ProgResult :=
  match _is_valid_swap coin_mint pc_mint with
  | .ok =>
    match checkedSub obs.from_before obs.from_after,
          checkedSub obs.to_after obs.to_before with
    | some from_amount, some to_amount =>
      apply_risk_checks
        { given_amount := amount
          min_exchange_rate := { mer with quote_decimals := 0 }
          from_amount := from_amount
          to_amount := to_amount
          quote_amount := 0
          spill_amount := 0
          from_mint := match side with | .Bid => pc_mint | .Ask => coin_mint
          to_mint := match side with | .Bid => coin_mint | .Ask => pc_mint
          quote_mint := pc_mint
          authority := authority }
    | _, _ => .trap
  | r => r

/-- Wallet balance readings around one leg of a transitive swap: the
leg's base wallet and the shared quote wallet, before and after. -/
structure LegObs where
  base_before : Nat
  quote_before : Nat
  base_after : Nat
  quote_after : Nat
deriving DecidableEq

/-- Body of `swap_transitive` (lib.rs:137-208), venue CPIs abstracted:
`leg1` holds leg 1's balance readings; `leg2 budget` holds leg 2's
readings when its buy is invoked with quote budget `budget` (the model
invokes it at `sell_proceeds`, as the source does at lib.rs:175). Returns
`none` on a trapped delta or spill subtraction, otherwise the budget
passed to leg 2's buy, the constructed `DidSwap`, and the risk-check
result. -/
def swap_transitive_core (amount : Nat) (mer : ExchangeRate)
    (from_coin_mint to_coin_mint quote_mint authority : Nat)
    (leg1 : LegObs) (leg2 : Nat → LegObs) :
    Option (Nat × DidSwap × ProgResult) :=
  (checkedSub leg1.base_before leg1.base_after).bind fun from_amount =>
  (checkedSub leg1.quote_after leg1.quote_before).bind fun sell_proceeds =>
  let o2 := leg2 sell_proceeds
  (checkedSub o2.base_after o2.base_before).bind fun to_amount =>
  (checkedSub o2.quote_before o2.quote_after).bind fun buy_proceeds =>
  (checkedSub sell_proceeds buy_proceeds).bind fun spill_amount =>
  let event : DidSwap :=
    { given_amount := amount
      min_exchange_rate := mer
      from_amount := from_amount
      to_amount := to_amount
      quote_amount := sell_proceeds
      spill_amount := spill_amount
      from_mint := from_coin_mint
      to_mint := to_coin_mint
      quote_mint := quote_mint
      authority := authority }
  some (sell_proceeds, event, apply_risk_checks event)

/-- `swap_transitive` (lib.rs:137-208) with its access-control check
(lib.rs:685-687): the two markets' coin-wallet mints must differ before
the body runs. -/
def swap_transitive (amount : Nat) (mer : ExchangeRate)
    (from_coin_mint to_coin_mint quote_mint authority : Nat)
    (leg1 : LegObs) (leg2 : Nat → LegObs) : ProgResult :=
  match _is_valid_swap from_coin_mint to_coin_mint with
  | .ok =>
    match swap_transitive_core amount mer from_coin_mint to_coin_mint
        quote_mint authority leg1 leg2 with
    | none => .trap
    | some (_, _, r) => r
  | r => r

/-! ### Characterizations of the checked operations -/

lemma checkedMul_eq_some_iff {a b c : Nat} :
    checkedMul a b = some c ↔ a * b < U128 ∧ c = a * b := by
  unfold checkedMul
  split_ifs with h <;> simp_all [eq_comm]

lemma checkedAdd_eq_some_iff {a b c : Nat} :
    checkedAdd a b = some c ↔ a + b < U128 ∧ c = a + b := by
  unfold checkedAdd
  split_ifs with h <;> simp_all [eq_comm]

lemma checkedSub_eq_some_iff {a b c : Nat} :
    checkedSub a b = some c ↔ b ≤ a ∧ c = a - b := by
  unfold checkedSub
  split_ifs with h <;> simp_all [eq_comm]

lemma checkedDiv_eq_some_iff {a b c : Nat} :
    checkedDiv a b = some c ↔ b ≠ 0 ∧ c = a / b := by
  unfold checkedDiv
  split_ifs with h <;> simp_all [eq_comm]

lemma checkedPow10_eq_some_iff {d c : Nat} :
    checkedPow10 d = some c ↔ 10 ^ d < U128 ∧ c = 10 ^ d := by
  unfold checkedPow10
  split_ifs with h <;> simp_all [eq_comm]

lemma checkedPow10_eq_none_of_ge {d : Nat} (h : 39 ≤ d) :
    checkedPow10 d = none := by
  unfold checkedPow10
  have h39 : (10 : Nat) ^ 39 ≤ 10 ^ d := Nat.pow_le_pow_right (by norm_num) h
  have hU : U128 ≤ 10 ^ 39 := by norm_num [U128]
  rw [if_neg]
  omega

/-! ### Characterizations of the risk-check arithmetic -/

lemma min_expected_amount_eq_some {e : DidSwap} {m : Nat}
    (h : min_expected_amount e = some m) :
    m = e.from_amount * e.min_exchange_rate.rate *
        10 ^ e.min_exchange_rate.quote_decimals := by
  unfold min_expected_amount at h
  rcases Option.bind_eq_some.mp h with ⟨a, ha, h⟩
  rcases Option.bind_eq_some.mp h with ⟨pq, hpq, h⟩
  obtain ⟨-, ha⟩ := checkedMul_eq_some_iff.mp ha
  obtain ⟨-, hpq⟩ := checkedPow10_eq_some_iff.mp hpq
  obtain ⟨-, h⟩ := checkedMul_eq_some_iff.mp h
  subst ha hpq h
  rfl

lemma min_expected_amount_eq_some_of_lt {e : DidSwap}
    (hb : e.from_amount * e.min_exchange_rate.rate *
          10 ^ e.min_exchange_rate.quote_decimals < U128)
    (hq : 10 ^ e.min_exchange_rate.quote_decimals < U128) :
    min_expected_amount e =
      some (e.from_amount * e.min_exchange_rate.rate *
            10 ^ e.min_exchange_rate.quote_decimals) := by
  have hpos : 0 < 10 ^ e.min_exchange_rate.quote_decimals :=
    Nat.pos_pow_of_pos _ (by norm_num)
  have h1 : e.from_amount * e.min_exchange_rate.rate < U128 := by
    calc e.from_amount * e.min_exchange_rate.rate
        ≤ e.from_amount * e.min_exchange_rate.rate *
            10 ^ e.min_exchange_rate.quote_decimals :=
          Nat.le_mul_of_pos_right _ hpos
      _ < U128 := hb
  unfold min_expected_amount
  rw [checkedMul_eq_some_iff.mpr ⟨h1, rfl⟩]
  simp only [Option.some_bind]
  rw [checkedPow10_eq_some_iff.mpr ⟨hq, rfl⟩]
  simp only [Option.some_bind]
  exact checkedMul_eq_some_iff.mpr ⟨hb, rfl⟩

lemma scaled_to_amount_eq_some {e : DidSwap} {t : Nat}
    (h : scaled_to_amount e = some t) :
    t = e.to_amount * 10 ^ e.min_exchange_rate.from_decimals *
        10 ^ e.min_exchange_rate.quote_decimals := by
  unfold scaled_to_amount at h
  rcases Option.bind_eq_some.mp h with ⟨pf, hpf, h⟩
  rcases Option.bind_eq_some.mp h with ⟨a, ha, h⟩
  rcases Option.bind_eq_some.mp h with ⟨pq, hpq, h⟩
  obtain ⟨-, hpf⟩ := checkedPow10_eq_some_iff.mp hpf
  obtain ⟨-, ha⟩ := checkedMul_eq_some_iff.mp ha
  obtain ⟨-, hpq⟩ := checkedPow10_eq_some_iff.mp hpq
  obtain ⟨-, h⟩ := checkedMul_eq_some_iff.mp h
  subst hpf ha hpq h
  rfl

lemma scaled_to_amount_eq_some_of_lt {e : DidSwap}
    (hb : e.to_amount * 10 ^ e.min_exchange_rate.from_decimals *
          10 ^ e.min_exchange_rate.quote_decimals < U128)
    (hf : 10 ^ e.min_exchange_rate.from_decimals < U128)
    (hq : 10 ^ e.min_exchange_rate.quote_decimals < U128) :
    scaled_to_amount e =
      some (e.to_amount * 10 ^ e.min_exchange_rate.from_decimals *
            10 ^ e.min_exchange_rate.quote_decimals) := by
  have hposq : 0 < 10 ^ e.min_exchange_rate.quote_decimals :=
    Nat.pos_pow_of_pos _ (by norm_num)
  have h1 : e.to_amount * 10 ^ e.min_exchange_rate.from_decimals < U128 := by
    calc e.to_amount * 10 ^ e.min_exchange_rate.from_decimals
        ≤ e.to_amount * 10 ^ e.min_exchange_rate.from_decimals *
            10 ^ e.min_exchange_rate.quote_decimals :=
          Nat.le_mul_of_pos_right _ hposq
      _ < U128 := hb
  unfold scaled_to_amount
  rw [checkedPow10_eq_some_iff.mpr ⟨hf, rfl⟩]
  simp only [Option.some_bind]
  rw [checkedMul_eq_some_iff.mpr ⟨h1, rfl⟩]
  simp only [Option.some_bind]
  rw [checkedPow10_eq_some_iff.mpr ⟨hq, rfl⟩]
  simp only [Option.some_bind]
  exact checkedMul_eq_some_iff.mpr ⟨hb, rfl⟩

lemma spill_surplus_of_zero_or_strict {e : DidSwap}
    (h : e.spill_amount = 0 ∨ e.min_exchange_rate.strict = true) :
    spill_surplus e = some 0 := by
  unfold spill_surplus
  rcases h with h | h <;> simp [h]

lemma spill_surplus_eq_some {e : DidSwap} {s : Nat}
    (hs : e.spill_amount ≠ 0) (hstrict : e.min_exchange_rate.strict = false)
    (h : spill_surplus e = some s) :
    e.spill_amount ≤ e.quote_amount ∧
    e.quote_amount - e.spill_amount ≠ 0 ∧
    s = e.to_amount * e.spill_amount *
        10 ^ e.min_exchange_rate.from_decimals *
        10 ^ e.min_exchange_rate.quote_decimals /
        (e.quote_amount - e.spill_amount) := by
  unfold spill_surplus at h
  rw [if_neg (by simp [hs, hstrict])] at h
  rcases Option.bind_eq_some.mp h with ⟨a, ha, h⟩
  rcases Option.bind_eq_some.mp h with ⟨pf, hpf, h⟩
  rcases Option.bind_eq_some.mp h with ⟨b, hb, h⟩
  rcases Option.bind_eq_some.mp h with ⟨pq, hpq, h⟩
  rcases Option.bind_eq_some.mp h with ⟨c, hc, h⟩
  rcases Option.bind_eq_some.mp h with ⟨d, hd, h⟩
  obtain ⟨-, ha⟩ := checkedMul_eq_some_iff.mp ha
  obtain ⟨-, hpf⟩ := checkedPow10_eq_some_iff.mp hpf
  obtain ⟨-, hb⟩ := checkedMul_eq_some_iff.mp hb
  obtain ⟨-, hpq⟩ := checkedPow10_eq_some_iff.mp hpq
  obtain ⟨-, hc⟩ := checkedMul_eq_some_iff.mp hc
  obtain ⟨hle, hd⟩ := checkedSub_eq_some_iff.mp hd
  obtain ⟨hdne, h⟩ := checkedDiv_eq_some_iff.mp h
  subst ha hpf hb hpq hc hd h
  exact ⟨hle, hdne, rfl⟩

lemma spill_surplus_eq_some_of_lt {e : DidSwap}
    (hs : e.spill_amount ≠ 0) (hstrict : e.min_exchange_rate.strict = false)
    (hlt : e.spill_amount < e.quote_amount)
    (hb : e.to_amount * e.spill_amount *
          10 ^ e.min_exchange_rate.from_decimals *
          10 ^ e.min_exchange_rate.quote_decimals < U128)
    (hf : 10 ^ e.min_exchange_rate.from_decimals < U128)
    (hq : 10 ^ e.min_exchange_rate.quote_decimals < U128) :
    spill_surplus e =
      some (e.to_amount * e.spill_amount *
            10 ^ e.min_exchange_rate.from_decimals *
            10 ^ e.min_exchange_rate.quote_decimals /
            (e.quote_amount - e.spill_amount)) := by
  have hposq : 0 < 10 ^ e.min_exchange_rate.quote_decimals :=
    Nat.pos_pow_of_pos _ (by norm_num)
  have hposf : 0 < 10 ^ e.min_exchange_rate.from_decimals :=
    Nat.pos_pow_of_pos _ (by norm_num)
  have h2 : e.to_amount * e.spill_amount *
      10 ^ e.min_exchange_rate.from_decimals < U128 := by
    calc e.to_amount * e.spill_amount *
          10 ^ e.min_exchange_rate.from_decimals
        ≤ e.to_amount * e.spill_amount *
            10 ^ e.min_exchange_rate.from_decimals *
            10 ^ e.min_exchange_rate.quote_decimals :=
          Nat.le_mul_of_pos_right _ hposq
      _ < U128 := hb
  have h1 : e.to_amount * e.spill_amount < U128 := by
    calc e.to_amount * e.spill_amount
        ≤ e.to_amount * e.spill_amount *
            10 ^ e.min_exchange_rate.from_decimals :=
          Nat.le_mul_of_pos_right _ hposf
      _ < U128 := h2
  unfold spill_surplus
  rw [if_neg (by simp [hs, hstrict])]
  rw [checkedMul_eq_some_iff.mpr ⟨h1, rfl⟩]
  simp only [Option.some_bind]
  rw [checkedPow10_eq_some_iff.mpr ⟨hf, rfl⟩]
  simp only [Option.some_bind]
  rw [checkedMul_eq_some_iff.mpr ⟨h2, rfl⟩]
  simp only [Option.some_bind]
  rw [checkedPow10_eq_some_iff.mpr ⟨hq, rfl⟩]
  simp only [Option.some_bind]
  rw [checkedMul_eq_some_iff.mpr ⟨hb, rfl⟩]
  simp only [Option.some_bind]
  rw [checkedSub_eq_some_iff.mpr ⟨Nat.le_of_lt hlt, rfl⟩]
  simp only [Option.some_bind]
  exact checkedDiv_eq_some_iff.mpr ⟨by omega, rfl⟩

lemma effective_to_amount_eq_some {e : DidSwap} {v : Nat}
    (h : effective_to_amount e = some v) :
    ∃ s t, spill_surplus e = some s ∧ scaled_to_amount e = some t ∧
      t + s < U128 ∧ v = t + s := by
  unfold effective_to_amount at h
  rcases Option.bind_eq_some.mp h with ⟨s, hs, h⟩
  rcases Option.bind_eq_some.mp h with ⟨t, ht, h⟩
  obtain ⟨hlt, h⟩ := checkedAdd_eq_some_iff.mp h
  exact ⟨s, t, hs, ht, hlt, h⟩

lemma effective_to_amount_eq_some_of {e : DidSwap} {s t : Nat}
    (hs : spill_surplus e = some s) (ht : scaled_to_amount e = some t)
    (hlt : t + s < U128) :
    effective_to_amount e = some (t + s) := by
  unfold effective_to_amount
  rw [hs]
  simp only [Option.some_bind]
  rw [ht]
  simp only [Option.some_bind]
  exact checkedAdd_eq_some_iff.mpr ⟨hlt, rfl⟩

lemma min_expected_amount_eq_none_of_qd {e : DidSwap}
    (h : 39 ≤ e.min_exchange_rate.quote_decimals) :
    min_expected_amount e = none := by
  unfold min_expected_amount
  cases checkedMul e.from_amount e.min_exchange_rate.rate with
  | none => rfl
  | some a => simp [checkedPow10_eq_none_of_ge h]

lemma scaled_to_amount_eq_none_of_fd {e : DidSwap}
    (h : 39 ≤ e.min_exchange_rate.from_decimals) :
    scaled_to_amount e = none := by
  unfold scaled_to_amount
  simp [checkedPow10_eq_none_of_ge h]

lemma effective_to_amount_eq_none_of_fd {e : DidSwap}
    (h : 39 ≤ e.min_exchange_rate.from_decimals) :
    effective_to_amount e = none := by
  unfold effective_to_amount
  cases hs : spill_surplus e with
  | none => rfl
  | some s => simp [scaled_to_amount_eq_none_of_fd h]

/-- C4: `apply_risk_checks` returns `ZeroSwap` exactly when the outcome's
`to_amount` is zero — in particular a swap with `from_amount > 0` but zero
output fails with `ZeroSwap`, and no other input produces that error, the
check preceding the slippage comparison. -/
theorem apply_risk_checks_zeroSwap_iff (e : DidSwap) :
    apply_risk_checks e = ProgResult.errZeroSwap ↔ e.to_amount = 0 := by
  unfold apply_risk_checks
  split_ifs with h
  · simp [h]
  · simp only [h, iff_false]
    cases hm : min_expected_amount e with
    | none => simp
    | some m =>
      cases hv : effective_to_amount e with
      | none => simp
      | some v => by_cases hlt : v < m <;> simp [hlt]

/-- C10: for any outcome with `to_amount > 0`, `apply_risk_checks` aborts
with an arithmetic trap whenever `quote_decimals ≥ 39` or
`from_decimals ≥ 39`: `10^d` no longer fits in a `u128`, so the
`checked_pow` unwrap panics before any decision is reached. -/
theorem apply_risk_checks_decimal_trap (e : DidSwap)
    (h0 : e.to_amount ≠ 0)
    (hd : 39 ≤ e.min_exchange_rate.quote_decimals ∨
          39 ≤ e.min_exchange_rate.from_decimals) :
    apply_risk_checks e = ProgResult.trap := by
  rcases hd with hq | hf
  · have hm := min_expected_amount_eq_none_of_qd (e := e) hq
    simp [apply_risk_checks, h0, hm]
  · have hv := effective_to_amount_eq_none_of_fd (e := e) hf
    cases hm : min_expected_amount e <;>
      simp [apply_risk_checks, h0, hm, hv]

/-- Witness for C10: a concrete outcome with `quote_decimals = 39` traps. -/
theorem apply_risk_checks_decimal_trap_witness :
    apply_risk_checks
      { given_amount := 1
        min_exchange_rate := ⟨1, 0, 39, false⟩
        from_amount := 1
        to_amount := 1
        quote_amount := 0
        spill_amount := 0
        from_mint := 1
        to_mint := 2
        quote_mint := 3
        authority := 0 } = ProgResult.trap :=
  apply_risk_checks_decimal_trap _ (by decide) (Or.inl (by decide))

lemma decision_iff {m t : Nat} :
    ((if t < m then ProgResult.errSlippageExceeded else ProgResult.ok) =
        ProgResult.ok ↔ m ≤ t) ∧
    ((if t < m then ProgResult.errSlippageExceeded else ProgResult.ok) =
        ProgResult.errSlippageExceeded ↔ t < m) := by
  constructor <;> split_ifs with h <;> simp <;> omega

lemma apply_risk_checks_congr {e₁ e₂ : DidSwap}
    (h0 : e₁.to_amount = e₂.to_amount)
    (hm : min_expected_amount e₁ = min_expected_amount e₂)
    (hv : effective_to_amount e₁ = effective_to_amount e₂) :
    apply_risk_checks e₁ = apply_risk_checks e₂ := by
  unfold apply_risk_checks
  rw [h0, hm, hv]

lemma apply_risk_checks_eq {e : DidSwap} {m v : Nat} (h0 : e.to_amount ≠ 0)
    (hm : min_expected_amount e = some m)
    (hv : effective_to_amount e = some v) :
    apply_risk_checks e =
      if v < m then ProgResult.errSlippageExceeded else ProgResult.ok := by
  simp [apply_risk_checks, h0, hm, hv]

/-- C1: for an outcome with `to_amount > 0` and `spill_amount == 0` or
`strict`, and the checked 128-bit arithmetic in range, `apply_risk_checks`
accepts exactly when
`to_amount·10^from_decimals·10^quote_decimals ≥ from_amount·rate·10^quote_decimals`
and returns `SlippageExceeded` exactly when the effective amount is
strictly below the minimum expectation. -/
theorem apply_risk_checks_no_spill_iff (e : DidSwap)
    (h0 : e.to_amount ≠ 0)
    (hbr : e.spill_amount = 0 ∨ e.min_exchange_rate.strict = true)
    (hmin : e.from_amount * e.min_exchange_rate.rate *
            10 ^ e.min_exchange_rate.quote_decimals < U128)
    (heff : e.to_amount * 10 ^ e.min_exchange_rate.from_decimals *
            10 ^ e.min_exchange_rate.quote_decimals < U128) :
    (apply_risk_checks e = ProgResult.ok ↔
      e.from_amount * e.min_exchange_rate.rate *
          10 ^ e.min_exchange_rate.quote_decimals ≤
        e.to_amount * 10 ^ e.min_exchange_rate.from_decimals *
          10 ^ e.min_exchange_rate.quote_decimals) ∧
    (apply_risk_checks e = ProgResult.errSlippageExceeded ↔
      e.to_amount * 10 ^ e.min_exchange_rate.from_decimals *
          10 ^ e.min_exchange_rate.quote_decimals <
        e.from_amount * e.min_exchange_rate.rate *
          10 ^ e.min_exchange_rate.quote_decimals) := by
  have hposf : 0 < 10 ^ e.min_exchange_rate.from_decimals :=
    Nat.pos_pow_of_pos _ (by norm_num)
  have hpos0 : 0 < e.to_amount := Nat.pos_of_ne_zero h0
  have hq : 10 ^ e.min_exchange_rate.quote_decimals < U128 := by
    have h1 : 10 ^ e.min_exchange_rate.quote_decimals ≤
        e.to_amount * 10 ^ e.min_exchange_rate.from_decimals *
          10 ^ e.min_exchange_rate.quote_decimals :=
      Nat.le_mul_of_pos_left _ (Nat.mul_pos hpos0 hposf)
    omega
  have hf : 10 ^ e.min_exchange_rate.from_decimals < U128 := by
    have h1 : 10 ^ e.min_exchange_rate.from_decimals ≤
        e.to_amount * 10 ^ e.min_exchange_rate.from_decimals :=
      Nat.le_mul_of_pos_left _ hpos0
    have h2 : e.to_amount * 10 ^ e.min_exchange_rate.from_decimals ≤
        e.to_amount * 10 ^ e.min_exchange_rate.from_decimals *
          10 ^ e.min_exchange_rate.quote_decimals :=
      Nat.le_mul_of_pos_right _ (Nat.pos_pow_of_pos _ (by norm_num))
    omega
  have hm := min_expected_amount_eq_some_of_lt hmin hq
  have ht := scaled_to_amount_eq_some_of_lt heff hf hq
  have hs := spill_surplus_of_zero_or_strict hbr
  have hv := effective_to_amount_eq_some_of hs ht (by omega)
  rw [apply_risk_checks_eq h0 hm hv]
  simp only [Nat.add_zero]
  exact decision_iff

/-- Witness for C1: spec's example scenario, an accepted direct swap. -/
theorem apply_risk_checks_no_spill_iff_witness :
    apply_risk_checks
      { given_amount := 1000000
        min_exchange_rate := ⟨1900000, 6, 0, false⟩
        from_amount := 1000000
        to_amount := 2000000
        quote_amount := 0
        spill_amount := 0
        from_mint := 1
        to_mint := 2
        quote_mint := 2
        authority := 0 } = ProgResult.ok :=
  ((apply_risk_checks_no_spill_iff _ (by decide) (Or.inl rfl)
      (by norm_num [U128]) (by norm_num [U128])).1).mpr (by norm_num)

/-- C2: for an outcome with `to_amount > 0`, `spill_amount > 0`, non-strict
rate, `0 < quote_amount − spill_amount`, and in-range checked arithmetic,
the effective to-amount credits the spill at leg 2's realized rate before
the comparison:
`effective = to·10^fd·10^qd + to·spill·10^fd·10^qd / (quote − spill)`. -/
theorem apply_risk_checks_spill_credit (e : DidSwap)
    (h0 : e.to_amount ≠ 0)
    (hsp : e.spill_amount ≠ 0)
    (hstrict : e.min_exchange_rate.strict = false)
    (hlt : e.spill_amount < e.quote_amount)
    (hb1 : e.to_amount * e.spill_amount *
           10 ^ e.min_exchange_rate.from_decimals *
           10 ^ e.min_exchange_rate.quote_decimals < U128)
    (hb2 : e.to_amount * 10 ^ e.min_exchange_rate.from_decimals *
           10 ^ e.min_exchange_rate.quote_decimals < U128)
    (hsum : e.to_amount * 10 ^ e.min_exchange_rate.from_decimals *
              10 ^ e.min_exchange_rate.quote_decimals +
            e.to_amount * e.spill_amount *
              10 ^ e.min_exchange_rate.from_decimals *
              10 ^ e.min_exchange_rate.quote_decimals /
              (e.quote_amount - e.spill_amount) < U128)
    (hmin : e.from_amount * e.min_exchange_rate.rate *
            10 ^ e.min_exchange_rate.quote_decimals < U128) :
    effective_to_amount e =
      some (e.to_amount * 10 ^ e.min_exchange_rate.from_decimals *
              10 ^ e.min_exchange_rate.quote_decimals +
            e.to_amount * e.spill_amount *
              10 ^ e.min_exchange_rate.from_decimals *
              10 ^ e.min_exchange_rate.quote_decimals /
              (e.quote_amount - e.spill_amount)) ∧
    (apply_risk_checks e = ProgResult.ok ↔
      e.from_amount * e.min_exchange_rate.rate *
          10 ^ e.min_exchange_rate.quote_decimals ≤
        e.to_amount * 10 ^ e.min_exchange_rate.from_decimals *
            10 ^ e.min_exchange_rate.quote_decimals +
          e.to_amount * e.spill_amount *
            10 ^ e.min_exchange_rate.from_decimals *
            10 ^ e.min_exchange_rate.quote_decimals /
            (e.quote_amount - e.spill_amount)) := by
  have hpos0 : 0 < e.to_amount := Nat.pos_of_ne_zero h0
  have hposs : 0 < e.spill_amount := Nat.pos_of_ne_zero hsp
  have hposf : 0 < 10 ^ e.min_exchange_rate.from_decimals :=
    Nat.pos_pow_of_pos _ (by norm_num)
  have hposq : 0 < 10 ^ e.min_exchange_rate.quote_decimals :=
    Nat.pos_pow_of_pos _ (by norm_num)
  have hq : 10 ^ e.min_exchange_rate.quote_decimals < U128 := by
    have h1 : 10 ^ e.min_exchange_rate.quote_decimals ≤
        e.to_amount * e.spill_amount *
          10 ^ e.min_exchange_rate.from_decimals *
          10 ^ e.min_exchange_rate.quote_decimals :=
      Nat.le_mul_of_pos_left _
        (Nat.mul_pos (Nat.mul_pos hpos0 hposs) hposf)
    omega
  have hf : 10 ^ e.min_exchange_rate.from_decimals < U128 := by
    have h1 : 10 ^ e.min_exchange_rate.from_decimals ≤
        e.to_amount * e.spill_amount *
          10 ^ e.min_exchange_rate.from_decimals :=
      Nat.le_mul_of_pos_left _ (Nat.mul_pos hpos0 hposs)
    have h2 : e.to_amount * e.spill_amount *
          10 ^ e.min_exchange_rate.from_decimals ≤
        e.to_amount * e.spill_amount *
          10 ^ e.min_exchange_rate.from_decimals *
          10 ^ e.min_exchange_rate.quote_decimals :=
      Nat.le_mul_of_pos_right _ hposq
    omega
  have hs := spill_surplus_eq_some_of_lt hsp hstrict hlt hb1 hf hq
  have ht := scaled_to_amount_eq_some_of_lt hb2 hf hq
  have hv := effective_to_amount_eq_some_of hs ht (by omega)
  have hm := min_expected_amount_eq_some_of_lt hmin hq
  refine ⟨hv, ?_⟩
  rw [apply_risk_checks_eq h0 hm hv]
  exact decision_iff.1

/-- Witness for C2: the spec's thin-book scenario (spill 100 of 500 quote,
leg 2 realized 50 base for 400 quote) credits 12 base-equivalent and the
swap is accepted at a floor of exactly 62. -/
theorem apply_risk_checks_spill_credit_witness :
    effective_to_amount
      { given_amount := 100
        min_exchange_rate := ⟨2, 0, 0, false⟩
        from_amount := 31
        to_amount := 50
        quote_amount := 500
        spill_amount := 100
        from_mint := 1
        to_mint := 2
        quote_mint := 3
        authority := 0 } = some 62 ∧
    apply_risk_checks
      { given_amount := 100
        min_exchange_rate := ⟨2, 0, 0, false⟩
        from_amount := 31
        to_amount := 50
        quote_amount := 500
        spill_amount := 100
        from_mint := 1
        to_mint := 2
        quote_mint := 3
        authority := 0 } = ProgResult.ok := by
  have h := apply_risk_checks_spill_credit
    { given_amount := 100
      min_exchange_rate := ⟨2, 0, 0, false⟩
      from_amount := 31
      to_amount := 50
      quote_amount := 500
      spill_amount := 100
      from_mint := 1
      to_mint := 2
      quote_mint := 3
      authority := 0 }
    (by decide) (by decide) rfl (by decide)
    (by norm_num [U128]) (by norm_num [U128]) (by norm_num [U128])
    (by norm_num [U128])
  exact ⟨h.1, h.2.mpr (by norm_num)⟩

/-- C6: when `strict` is set, the decision is identical to the outcome
with `spill_amount` forced to 0; and when `spill_amount = 0`, the
non-strict decision is identical to the strict one — the spill-crediting
branch is a no-op exactly in these cases. -/
theorem apply_risk_checks_strict_spill (e : DidSwap) :
    (e.min_exchange_rate.strict = true →
      apply_risk_checks e =
        apply_risk_checks { e with spill_amount := 0 }) ∧
    (e.spill_amount = 0 →
      apply_risk_checks e =
        apply_risk_checks
          { e with min_exchange_rate :=
              { e.min_exchange_rate with strict := true } }) := by
  constructor
  · intro hstrict
    have h1 : spill_surplus e = some 0 :=
      spill_surplus_of_zero_or_strict (Or.inr hstrict)
    have h2 : spill_surplus { e with spill_amount := 0 } = some 0 :=
      spill_surplus_of_zero_or_strict (Or.inl rfl)
    have heff : effective_to_amount { e with spill_amount := 0 } =
        effective_to_amount e := by
      unfold effective_to_amount
      rw [h1, h2]
      rfl
    exact (apply_risk_checks_congr rfl rfl heff.symm)
  · intro hsp
    have h1 : spill_surplus e = some 0 :=
      spill_surplus_of_zero_or_strict (Or.inl hsp)
    have h2 : spill_surplus
        { e with min_exchange_rate :=
            { e.min_exchange_rate with strict := true } } = some 0 :=
      spill_surplus_of_zero_or_strict (Or.inl hsp)
    have heff : effective_to_amount
        { e with min_exchange_rate :=
            { e.min_exchange_rate with strict := true } } =
        effective_to_amount e := by
      unfold effective_to_amount
      rw [h1, h2]
      rfl
    exact (apply_risk_checks_congr rfl rfl heff.symm)

/-- Witness for C6: both no-op directions at concrete outcomes. -/
theorem apply_risk_checks_strict_spill_witness :
    apply_risk_checks
        { given_amount := 10
          min_exchange_rate := ⟨3, 2, 1, true⟩
          from_amount := 10
          to_amount := 4
          quote_amount := 9
          spill_amount := 5
          from_mint := 1
          to_mint := 2
          quote_mint := 3
          authority := 0 } =
      apply_risk_checks
        { given_amount := 10
          min_exchange_rate := ⟨3, 2, 1, true⟩
          from_amount := 10
          to_amount := 4
          quote_amount := 9
          spill_amount := 0
          from_mint := 1
          to_mint := 2
          quote_mint := 3
          authority := 0 } ∧
    apply_risk_checks
        { given_amount := 10
          min_exchange_rate := ⟨3, 2, 1, false⟩
          from_amount := 10
          to_amount := 4
          quote_amount := 9
          spill_amount := 0
          from_mint := 1
          to_mint := 2
          quote_mint := 3
          authority := 0 } =
      apply_risk_checks
        { given_amount := 10
          min_exchange_rate := ⟨3, 2, 1, true⟩
          from_amount := 10
          to_amount := 4
          quote_amount := 9
          spill_amount := 0
          from_mint := 1
          to_mint := 2
          quote_mint := 3
          authority := 0 } :=
  ⟨(apply_risk_checks_strict_spill _).1 rfl,
   (apply_risk_checks_strict_spill _).2 rfl⟩

lemma apply_risk_checks_ok_inv {e : DidSwap}
    (h : apply_risk_checks e = ProgResult.ok) :
    e.to_amount ≠ 0 ∧ ∃ m v, min_expected_amount e = some m ∧
      effective_to_amount e = some v ∧ m ≤ v := by
  by_cases h0 : e.to_amount = 0
  · simp [apply_risk_checks, h0] at h
  · refine ⟨h0, ?_⟩
    cases hm : min_expected_amount e with
    | none => simp [apply_risk_checks, h0, hm] at h
    | some m =>
      cases hv : effective_to_amount e with
      | none => simp [apply_risk_checks, h0, hm, hv] at h
      | some v =>
        refine ⟨m, v, rfl, rfl, ?_⟩
        by_cases hlt : v < m
        · simp [apply_risk_checks, h0, hm, hv, hlt] at h
        · omega

/-- C9: the accept/reject decision is monotone in `to_amount`: an accepted
outcome with `to_amount` strictly increased (all other fields equal) is
never rejected — it cannot flip to `SlippageExceeded` (nor `ZeroSwap`);
at worst a larger product overflows and traps, which is not a rejection. -/
theorem apply_risk_checks_mono_to_amount (e : DidSwap) (t' : Nat)
    (hacc : apply_risk_checks e = ProgResult.ok)
    (hgt : e.to_amount < t') :
    apply_risk_checks { e with to_amount := t' } ≠
        ProgResult.errSlippageExceeded ∧
    apply_risk_checks { e with to_amount := t' } ≠
        ProgResult.errZeroSwap := by
  obtain ⟨h0, m, v, hm, hv, hmv⟩ := apply_risk_checks_ok_inv hacc
  have h0' : ({ e with to_amount := t' } : DidSwap).to_amount ≠ 0 := by
    show t' ≠ 0
    omega
  have hm' : min_expected_amount { e with to_amount := t' } = some m := hm
  cases hv' : effective_to_amount { e with to_amount := t' } with
  | none =>
    constructor <;> simp [apply_risk_checks, h0', hm', hv']
  | some v' =>
    have hle : m ≤ v' := by
      obtain ⟨s0, t0, hs0, ht0, -, rfl⟩ := effective_to_amount_eq_some hv
      obtain ⟨s1, t1, hs1, ht1, -, rfl⟩ := effective_to_amount_eq_some hv'
      have ht0v := scaled_to_amount_eq_some ht0
      have ht1v := scaled_to_amount_eq_some ht1
      dsimp only at ht1v
      have htle : t0 ≤ t1 := by
        rw [ht0v, ht1v]
        exact Nat.mul_le_mul_right _
          (Nat.mul_le_mul_right _ (Nat.le_of_lt hgt))
      have hsle : s0 ≤ s1 := by
        by_cases hbr : e.spill_amount = 0 ∨ e.min_exchange_rate.strict = true
        · have hz0 : spill_surplus e = some 0 :=
            spill_surplus_of_zero_or_strict hbr
          have hz1 : spill_surplus { e with to_amount := t' } = some 0 :=
            spill_surplus_of_zero_or_strict hbr
          rw [hz0] at hs0
          rw [hz1] at hs1
          obtain rfl := Option.some.inj hs0
          obtain rfl := Option.some.inj hs1
          exact Nat.le_refl _
        · push_neg at hbr
          obtain ⟨hspne, hstr⟩ := hbr
          have hstr' : e.min_exchange_rate.strict = false := by
            simpa using hstr
          have hspne' :
              ({ e with to_amount := t' } : DidSwap).spill_amount ≠ 0 :=
            hspne
          have hstrP :
              ({ e with to_amount := t' } :
                DidSwap).min_exchange_rate.strict = false :=
            hstr'
          obtain ⟨-, -, hs0v⟩ := spill_surplus_eq_some hspne hstr' hs0
          obtain ⟨-, -, hs1v⟩ := spill_surplus_eq_some hspne' hstrP hs1
          dsimp only at hs1v
          rw [hs0v, hs1v]
          refine Nat.div_le_div_right ?_
          exact Nat.mul_le_mul_right _
            (Nat.mul_le_mul_right _
              (Nat.mul_le_mul_right _ (Nat.le_of_lt hgt)))
      omega
    constructor <;>
      simp [apply_risk_checks, h0', hm', hv', Nat.not_lt.mpr hle]

/-- Witness for C9: a concretely accepted outcome stays out of
`SlippageExceeded` and `ZeroSwap` when its `to_amount` grows from 2 to 3. -/
theorem apply_risk_checks_mono_to_amount_witness :
    apply_risk_checks
        { given_amount := 1
          min_exchange_rate := ⟨1, 0, 0, false⟩
          from_amount := 1
          to_amount := 3
          quote_amount := 0
          spill_amount := 0
          from_mint := 1
          to_mint := 2
          quote_mint := 3
          authority := 0 } ≠ ProgResult.errSlippageExceeded ∧
    apply_risk_checks
        { given_amount := 1
          min_exchange_rate := ⟨1, 0, 0, false⟩
          from_amount := 1
          to_amount := 3
          quote_amount := 0
          spill_amount := 0
          from_mint := 1
          to_mint := 2
          quote_mint := 3
          authority := 0 } ≠ ProgResult.errZeroSwap :=
  apply_risk_checks_mono_to_amount
    { given_amount := 1
      min_exchange_rate := ⟨1, 0, 0, false⟩
      from_amount := 1
      to_amount := 2
      quote_amount := 0
      spill_amount := 0
      from_mint := 1
      to_mint := 2
      quote_mint := 3
      authority := 0 } 3 (by decide) (by decide)

lemma checkedSub_eq_none_iff {a b : Nat} :
    checkedSub a b = none ↔ a < b := by
  unfold checkedSub
  split_ifs with h <;> simp <;> omega

/-- C5: in `swap_transitive`, leg 2's buy budget is exactly
`sell_proceeds`, the measured quote delta of leg 1; whenever an outcome is
constructed, `buy_proceeds ≤ sell_proceeds` and
`spill_amount = sell_proceeds − buy_proceeds`, with
`quote_amount = sell_proceeds`; and if `buy_proceeds > sell_proceeds` the
trapping subtraction aborts the whole operation. -/
theorem swap_transitive_core_spill (amount : Nat) (mer : ExchangeRate)
    (fm tm qm auth : Nat) (leg1 : LegObs) (leg2 : Nat → LegObs) :
    (∀ b ev r,
      swap_transitive_core amount mer fm tm qm auth leg1 leg2 =
        some (b, ev, r) →
      leg1.quote_before ≤ leg1.quote_after ∧
      b = leg1.quote_after - leg1.quote_before ∧
      (leg2 b).quote_before - (leg2 b).quote_after ≤ b ∧
      ev.quote_amount = b ∧
      ev.spill_amount =
        b - ((leg2 b).quote_before - (leg2 b).quote_after)) ∧
    (leg1.quote_before ≤ leg1.quote_after →
      (leg2 (leg1.quote_after - leg1.quote_before)).quote_after ≤
        (leg2 (leg1.quote_after - leg1.quote_before)).quote_before →
      leg1.quote_after - leg1.quote_before <
        (leg2 (leg1.quote_after - leg1.quote_before)).quote_before -
          (leg2 (leg1.quote_after - leg1.quote_before)).quote_after →
      swap_transitive_core amount mer fm tm qm auth leg1 leg2 = none) := by
  constructor
  · intro b ev r h
    simp only [swap_transitive_core, Option.bind_eq_some, Option.some.injEq,
      Prod.mk.injEq] at h
    obtain ⟨fa, hfa, sp, hsp, ta, hta, bp, hbp, sa, hsa, hb, hev, hr⟩ := h
    obtain ⟨hq1, rfl⟩ := checkedSub_eq_some_iff.mp hsp
    obtain ⟨hb1, rfl⟩ := checkedSub_eq_some_iff.mp hbp
    obtain ⟨hs1, rfl⟩ := checkedSub_eq_some_iff.mp hsa
    subst hb
    subst hev
    exact ⟨hq1, rfl, hs1, rfl, rfl⟩
  · intro hq hb hlt
    unfold swap_transitive_core
    cases hfa : checkedSub leg1.base_before leg1.base_after with
    | none => rfl
    | some fa =>
      simp only [Option.some_bind]
      rw [checkedSub_eq_some_iff.mpr ⟨hq, rfl⟩]
      simp only [Option.some_bind]
      cases hta : checkedSub
          (leg2 (leg1.quote_after - leg1.quote_before)).base_after
          (leg2 (leg1.quote_after - leg1.quote_before)).base_before with
      | none => rfl
      | some ta =>
        simp only [Option.some_bind]
        rw [checkedSub_eq_some_iff.mpr ⟨hb, rfl⟩]
        simp only [Option.some_bind]
        rw [checkedSub_eq_none_iff.mpr hlt]
        rfl

/-- Witness for C5: both conjuncts at concrete legs — a constructed
outcome with proceeds 9, buy consumption 7 and spill 2; and an aborting
run where leg 2 reports consuming 10 > 9. -/
theorem swap_transitive_core_spill_witness :
    ((0 : Nat) ≤ 9 ∧ (9 : Nat) = 9 - 0 ∧ (9 : Nat) - 2 ≤ 9 ∧
      (DidSwap.quote_amount
        { given_amount := 6
          min_exchange_rate := ⟨1, 0, 0, false⟩
          from_amount := 6
          to_amount := 5
          quote_amount := 9
          spill_amount := 2
          from_mint := 1
          to_mint := 2
          quote_mint := 3
          authority := 4 } = 9) ∧
      (DidSwap.spill_amount
        { given_amount := 6
          min_exchange_rate := ⟨1, 0, 0, false⟩
          from_amount := 6
          to_amount := 5
          quote_amount := 9
          spill_amount := 2
          from_mint := 1
          to_mint := 2
          quote_mint := 3
          authority := 4 } = 9 - (9 - 2))) ∧
    swap_transitive_core 6 ⟨1, 0, 0, false⟩ 1 2 3 4
      ⟨10, 0, 4, 9⟩ (fun b => LegObs.mk 0 (b + 1) 5 0) = none := by
  constructor
  · exact (swap_transitive_core_spill 6 ⟨1, 0, 0, false⟩ 1 2 3 4
      ⟨10, 0, 4, 9⟩ (fun b => LegObs.mk 0 b 5 2)).1 9
      { given_amount := 6
        min_exchange_rate := ⟨1, 0, 0, false⟩
        from_amount := 6
        to_amount := 5
        quote_amount := 9
        spill_amount := 2
        from_mint := 1
        to_mint := 2
        quote_mint := 3
        authority := 4 }
      ProgResult.ok (by decide)
  · exact (swap_transitive_core_spill 6 ⟨1, 0, 0, false⟩ 1 2 3 4
      ⟨10, 0, 4, 9⟩ (fun b => LegObs.mk 0 (b + 1) 5 0)).2
      (by decide) (by decide) (by decide)

/-- C3 counterexample: with both measured deltas zero (a possible direct
swap: nothing filled), the claimed equivalence fails at a concrete input:
`to_amount × 10^D_f ≥ from_amount × R` holds (`0 ≥ 0`) yet the risk check
does not succeed — it rejects with `ZeroSwap`. -/
theorem swap_direct_decision_cex :
    ¬ (swap Side.Ask 10 ⟨1, 0, 7, true⟩ 1 2 0 ⟨5, 5, 5, 5⟩ =
          ProgResult.ok ↔
        (5 - 5) * 1 ≤ (5 - 5) * 10 ^ 0) := by
  decide

/-- C3 (amended): the direct swap overwrites the caller's
`quote_decimals` with 0 and builds its outcome with `quote_amount = 0`,
`spill_amount = 0`; provided the measured to-delta is positive and the
checked 128-bit products are in range, the risk check succeeds iff
`to_delta × 10^from_decimals ≥ from_delta × rate`, for every caller
`quote_decimals` and `strict` (they do not appear in the condition). -/
theorem swap_direct_decision (side : Side) (amount : Nat)
    (mer : ExchangeRate) (coin_mint pc_mint authority : Nat)
    (obs : DirectObs)
    (hmint : coin_mint ≠ pc_mint)
    (hfrom : obs.from_after ≤ obs.from_before)
    (hto : obs.to_before ≤ obs.to_after)
    (h0 : obs.to_after - obs.to_before ≠ 0)
    (hb1 : (obs.from_before - obs.from_after) * mer.rate < U128)
    (hb2 : (obs.to_after - obs.to_before) * 10 ^ mer.from_decimals <
           U128) :
    swap side amount mer coin_mint pc_mint authority obs =
        ProgResult.ok ↔
      (obs.from_before - obs.from_after) * mer.rate ≤
        (obs.to_after - obs.to_before) * 10 ^ mer.from_decimals := by
  have hvalid : _is_valid_swap coin_mint pc_mint = ProgResult.ok := by
    simp [_is_valid_swap, hmint]
  have hswap : swap side amount mer coin_mint pc_mint authority obs =
      apply_risk_checks
        { given_amount := amount
          min_exchange_rate := { mer with quote_decimals := 0 }
          from_amount := obs.from_before - obs.from_after
          to_amount := obs.to_after - obs.to_before
          quote_amount := 0
          spill_amount := 0
          from_mint := match side with | .Bid => pc_mint | .Ask => coin_mint
          to_mint := match side with | .Bid => coin_mint | .Ask => pc_mint
          quote_mint := pc_mint
          authority := authority } := by
    unfold swap
    rw [hvalid, checkedSub_eq_some_iff.mpr ⟨hfrom, rfl⟩,
      checkedSub_eq_some_iff.mpr ⟨hto, rfl⟩]
  rw [hswap]
  have h := apply_risk_checks_no_spill_iff
    { given_amount := amount
      min_exchange_rate := { mer with quote_decimals := 0 }
      from_amount := obs.from_before - obs.from_after
      to_amount := obs.to_after - obs.to_before
      quote_amount := 0
      spill_amount := 0
      from_mint := match side with | .Bid => pc_mint | .Ask => coin_mint
      to_mint := match side with | .Bid => coin_mint | .Ask => pc_mint
      quote_mint := pc_mint
      authority := authority }
    h0 (Or.inl rfl) (by simpa using hb1) (by simpa using hb2)
  simpa using h.1

/-- Witness for C3 (amended): an accepted direct ask swap at rate
1900000, with caller `quote_decimals = 9` and `strict = true` having no
effect. -/
theorem swap_direct_decision_witness :
    swap Side.Ask 1000000 ⟨1900000, 6, 9, true⟩ 1 2 0
      ⟨1000000, 0, 0, 2000000⟩ = ProgResult.ok :=
  (swap_direct_decision Side.Ask 1000000 ⟨1900000, 6, 9, true⟩ 1 2 0
      ⟨1000000, 0, 0, 2000000⟩ (by decide) (by decide) (by decide)
      (by decide) (by norm_num [U128]) (by norm_num [U128])).mpr
    (by norm_num)

/-- C7: whenever the relevant mints coincide — the market's coin wallet
and pc wallet for a direct swap, the two markets' coin wallets for a
transitive swap — the call fails with `SwapTokensCannotMatch`, whatever
the venue would have done (the result is the same for every balance
observation, i.e. the check precedes any order or balance mutation). -/
theorem swap_same_mint_rejected :
    (∀ (side : Side) (amount : Nat) (mer : ExchangeRate)
        (coin_mint pc_mint authority : Nat) (obs : DirectObs),
      coin_mint = pc_mint →
      swap side amount mer coin_mint pc_mint authority obs =
        ProgResult.errSwapTokensCannotMatch) ∧
    (∀ (amount : Nat) (mer : ExchangeRate)
        (fm tm qm auth : Nat) (leg1 : LegObs) (leg2 : Nat → LegObs),
      fm = tm →
      swap_transitive amount mer fm tm qm auth leg1 leg2 =
        ProgResult.errSwapTokensCannotMatch) := by
  constructor
  · intro side amount mer coin_mint pc_mint authority obs h
    simp [swap, _is_valid_swap, h]
  · intro amount mer fm tm qm auth leg1 leg2 h
    simp [swap_transitive, _is_valid_swap, h]

/-- Witness for C7: both entry points at concrete equal mints. -/
theorem swap_same_mint_rejected_witness :
    swap Side.Bid 5 ⟨1, 0, 0, false⟩ 7 7 0 ⟨1, 2, 3, 4⟩ =
        ProgResult.errSwapTokensCannotMatch ∧
    swap_transitive 5 ⟨1, 0, 0, false⟩ 7 7 3 0 ⟨1, 2, 3, 4⟩
        (fun b => LegObs.mk 0 b 0 0) =
      ProgResult.errSwapTokensCannotMatch :=
  ⟨swap_same_mint_rejected.1 Side.Bid 5 ⟨1, 0, 0, false⟩ 7 7 0
      ⟨1, 2, 3, 4⟩ rfl,
   swap_same_mint_rejected.2 5 ⟨1, 0, 0, false⟩ 7 7 3 0 ⟨1, 2, 3, 4⟩
      (fun b => LegObs.mk 0 b 0 0) rfl⟩

/-- C8 counterexample: with lot size 2 and base amount 1 — a base amount
smaller than one lot — `sell` computes 0 lots and the
`NonZeroU64::new(0).unwrap()` in `order_cpi` panics: the call aborts
instead of placing an order, so the sub-lot case is an error, contrary to
the claim. -/
theorem sell_sub_lot_cex : sell 2 1 = none := by decide

/-- C8 (amended): for a positive lot size and a base amount of at least
one lot, `sell` places exactly one order, for exactly
`⌊base_amount / coin_lot_size⌋` base lots, at limit price 1 with an
unbounded quote cap — the sub-lot remainder is simply not part of the
order; a base amount below one lot aborts in the `NonZeroU64`
conversion. -/
theorem sell_lots (coin_lot_size base_amount : Nat)
    (hpos : 0 < coin_lot_size) (hge : coin_lot_size ≤ base_amount) :
    sell coin_lot_size base_amount =
      some ⟨1, base_amount / coin_lot_size, 2 ^ 64 - 1, .Ask, 0, 65535⟩ := by
  have hlots : 0 < base_amount / coin_lot_size :=
    Nat.div_pos hge hpos
  unfold sell coin_lots
  rw [checkedDiv_eq_some_iff.mpr ⟨Nat.pos_iff_ne_zero.mp hpos, rfl⟩]
  simp only [Option.some_bind]
  unfold order_cpi nonZeroU64
  rw [if_neg (by omega), if_neg (by omega), if_neg (by norm_num)]
  simp

/-- Witness for C8 (amended): lot size 10, base amount 25 — an order for
exactly 2 lots; the 5-unit remainder is not part of the order. -/
theorem sell_lots_witness :
    sell 10 25 = some ⟨1, 25 / 10, 2 ^ 64 - 1, .Ask, 0, 65535⟩ :=
  sell_lots 10 25 (by decide) (by decide)

end SerumSwap
